import Mathlib

/-!
Verification of the targetprocess-mcp server (src/targetprocess_mcp.py)
against its natural-language specification.

The Python source is shallowly embedded: every tool's pure computation
(filter-string construction, payload construction, JSON serialization,
configuration merging) is a Lean function translated clause by clause from
the source; the remote HTTP calls a tool makes are abstracted as oracle
functions passed to the tool (one argument per distinct remote call shape),
and each tool returns, next to its output string, the trace of calls it
issued, so that counting calls and inspecting payloads is expressible.

Python truthiness is modelled explicitly: an optional string argument is
`Option String` and tests as present when it is `some s` with `s` nonempty;
an optional integer is `Option Int`, present when `some n` with `n ≠ 0`;
an optional float is `Option Rat` (numbers are embedded as rationals; the
claims only ever inspect values, sums and order, never float rounding).
-/

/-- Python truthiness of an optional string: `None` and `""` are falsy. -/
def truthyStr : Option String → Bool
  | some s => !s.isEmpty
  | none => false

/-- Python truthiness of an optional integer: `None` and `0` are falsy. -/
def truthyInt : Option Int → Bool
  | some n => n != 0
  | none => false

/-- Mirrors `if arg: where_clauses.append(f(arg))` for a string argument:
the contributed clauses (one when the argument is truthy, none otherwise). -/
def strClause (a : Option String) (f : String → String) : List String :=
  match a with
  | some s => if s.isEmpty then [] else [f s]
  | none => []

/-- Mirrors `if arg: where_clauses.append(f(arg))` for an integer argument. -/
def intClause (a : Option Int) (f : Int → String) : List String :=
  match a with
  | some n => if n == 0 then [] else [f n]
  | none => []

/-- Mirrors `" and ".join(where_clauses) if where_clauses else None`:
the `where` string handed to the client, `none` when no clause is present
(the `where` query parameter is then omitted entirely by the client). -/
def joinWhere (cs : List String) : Option String :=
  if cs.isEmpty then none else some (String.intercalate " and " cs)

/-! Clause formatters, verbatim from the f-strings of the source. -/

def fmtProjectId (n : Int) : String := "Project.Id eq " ++ toString n

def fmtIterationId (n : Int) : String := "Iteration.Id eq " ++ toString n

def fmtState (s : String) : String := "EntityState.Name eq '" ++ s ++ "'"

def fmtAssigned (s : String) : String :=
  "(AssignedUser.Email eq '" ++ s ++ "' or AssignedUser.FirstName eq '" ++ s ++ "')"

def fmtStoryId (n : Int) : String := "UserStory.Id eq " ++ toString n

def fmtSeverity (s : String) : String := "Severity.Name eq '" ++ s ++ "'"

def fmtUserId (n : Int) : String := "GeneralUser.Id eq " ++ toString n

def fmtUserEmail (s : String) : String := "GeneralUser.Email eq '" ++ s ++ "'"

def fmtAsgType (s : String) : String := "Assignable.EntityType.Name eq '" ++ s ++ "'"

def fmtAsgState (s : String) : String := "Assignable.EntityState.Name eq '" ++ s ++ "'"

def fmtAsgProject (n : Int) : String := "Assignable.Project.Id eq " ++ toString n

/-- `list_user_stories`: the `where` string it passes to
`tp_client.get_entities`, built from its optional arguments (source order:
where_clause, project_id, iteration_id, state, assigned_to). -/
def list_user_stories_where (project_id iteration_id : Option Int)
    (state assigned_to where_clause : Option String) : Option String :=
  joinWhere
    (strClause where_clause (fun w => w) ++
     intClause project_id fmtProjectId ++
     intClause iteration_id fmtIterationId ++
     strClause state fmtState ++
     strClause assigned_to fmtAssigned)

/-- `list_tasks`: the `where` string (source order: where_clause, story_id,
state, assigned_to). -/
def list_tasks_where (story_id : Option Int)
    (assigned_to state where_clause : Option String) : Option String :=
  joinWhere
    (strClause where_clause (fun w => w) ++
     intClause story_id fmtStoryId ++
     strClause state fmtState ++
     strClause assigned_to fmtAssigned)

/-- `list_bugs`: the `where` string (source order: where_clause, project_id,
state, severity, assigned_to). -/
def list_bugs_where (project_id : Option Int)
    (state severity assigned_to where_clause : Option String) : Option String :=
  joinWhere
    (strClause where_clause (fun w => w) ++
     intClause project_id fmtProjectId ++
     strClause state fmtState ++
     strClause severity fmtSeverity ++
     strClause assigned_to fmtAssigned)

/-- `list_iterations`: the `where` string (source order: project_id,
is_current; `is_current` is a plain boolean defaulting to false). -/
def list_iterations_where (project_id : Option Int) (is_current : Bool) :
    Option String :=
  joinWhere
    (intClause project_id fmtProjectId ++
     (if is_current then ["IsCurrent eq 'true'"] else []))

/-- `list_assignments`: the `where` string. The source filters by user with
`if user_id: ... elif user_email: ...`, so a truthy `user_id` suppresses the
`user_email` clause; then entity_type, state, project_id follow. -/
def list_assignments_where (user_id : Option Int)
    (user_email entity_type state : Option String) (project_id : Option Int) :
    Option String :=
  joinWhere
    ((if truthyInt user_id then
        intClause user_id fmtUserId
      else
        strClause user_email fmtUserEmail) ++
     strClause entity_type fmtAsgType ++
     strClause state fmtAsgState ++
     intClause project_id fmtAsgProject)

/-! Claim-side (spec-worded) filter construction: each present argument
contributes exactly one clause, in the fixed per-tool order, and the present
clauses are joined with " and ". `specOfStr`/`specOfInt` give an argument's
clause when the argument is present (Python-present, i.e. truthy),
`presentOnes` collects the clauses of the present arguments. -/

def specOfStr (a : Option String) (f : String → String) : Option String :=
  match a with
  | some s => if s.isEmpty then none else some (f s)
  | none => none

def specOfInt (a : Option Int) (f : Int → String) : Option String :=
  match a with
  | some n => if n == 0 then none else some (f n)
  | none => none

def presentOnes : List (Option String) → List String
  | [] => []
  | none :: rest => presentOnes rest
  | some c :: rest => c :: presentOnes rest

/-- The spec's construction: the clauses of the present arguments, in the
given order, joined with " and "; `none` when no argument is present. -/
def specJoin (cs : List (Option String)) : Option String :=
  joinWhere (presentOnes cs)

/-- The claim's reading of `list_assignments`: every present argument
contributes its clause (no elif between user_id and user_email). -/
def claim_assignments_where (user_id : Option Int)
    (user_email entity_type state : Option String) (project_id : Option Int) :
    Option String :=
  specJoin
    [specOfInt user_id fmtUserId,
     specOfStr user_email fmtUserEmail,
     specOfStr entity_type fmtAsgType,
     specOfStr state fmtAsgState,
     specOfInt project_id fmtAsgProject]

/-! JSON values and Python's `json.dumps`.

`Json` embeds the JSON values the server builds and passes through; to keep
all recursion structural it is a mutual inductive with its own list types
(`JsonList` for arrays, `JsonKVList` for the ordered key/value pairs of a
dict). Numbers are rationals; every number the claims inspect is an
integer, and `numRepr` prints an integral rational the way `json.dumps`
prints a Python int. `dumps` mirrors `json.dumps(x)` with its default
separators (", " between items, ": " after a key, a single line);
`dumpsIndent2` mirrors `json.dumps(x, indent=2)`. -/

mutual

inductive Json where
  | null : Json
  | bool : Bool → Json
  | num : Rat → Json
  | str : String → Json
  | arr : JsonList → Json
  | obj : JsonKVList → Json

inductive JsonList where
  | nil : JsonList
  | cons : Json → JsonList → JsonList

inductive JsonKVList where
  | nil : JsonKVList
  | cons : String → Json → JsonKVList → JsonKVList

end

def JsonList.ofList : List Json → JsonList
  | [] => JsonList.nil
  | x :: xs => JsonList.cons x (JsonList.ofList xs)

def JsonKVList.ofList : List (String × Json) → JsonKVList
  | [] => JsonKVList.nil
  | kv :: kvs => JsonKVList.cons kv.1 kv.2 (JsonKVList.ofList kvs)

/-- The Lean list of an embedded dict's key/value pairs. -/
def kvListToList : JsonKVList → List (String × Json)
  | JsonKVList.nil => []
  | JsonKVList.cons k v kvs => (k, v) :: kvListToList kvs

/-- A JSON array from a Lean list. -/
def jArr (xs : List Json) : Json := Json.arr (JsonList.ofList xs)

/-- A JSON object (Python dict, insertion-ordered) from a Lean list of
key/value pairs. -/
def jObj (kvs : List (String × Json)) : Json := Json.obj (JsonKVList.ofList kvs)

def hexDigit (n : Nat) : Char :=
  if n < 10 then Char.ofNat (48 + n) else Char.ofNat (87 + n)

/-- How `json.dumps` escapes one character inside a string literal. -/
def escapeChar (c : Char) : String :=
  if c = '"' then "\\\""
  else if c = '\\' then "\\\\"
  else if c = '\n' then "\\n"
  else if c = '\t' then "\\t"
  else if c = '\r' then "\\r"
  else if c = Char.ofNat 8 then "\\b"
  else if c = Char.ofNat 12 then "\\f"
  else if c.toNat < 32 then
    "\\u00" ++ String.mk [hexDigit (c.toNat / 16), hexDigit (c.toNat % 16)]
  else String.singleton c

def quoteJson (s : String) : String :=
  "\"" ++ String.join (s.toList.map escapeChar) ++ "\""

def numRepr (q : Rat) : String :=
  if q.den = 1 then toString q.num else toString q.num ++ "/" ++ toString q.den

mutual

def dumpsVal : Json → String
  | Json.null => "null"
  | Json.bool b => cond b "true" "false"
  | Json.num q => numRepr q
  | Json.str s => quoteJson s
  | Json.arr xs => "[" ++ dumpsArr xs ++ "]"
  | Json.obj kvs => "\x7b" ++ dumpsObj kvs ++ "\x7d"

def dumpsArr : JsonList → String
  | JsonList.nil => ""
  | JsonList.cons x JsonList.nil => dumpsVal x
  | JsonList.cons x (JsonList.cons y ys) =>
      dumpsVal x ++ ", " ++ dumpsArr (JsonList.cons y ys)

def dumpsObj : JsonKVList → String
  | JsonKVList.nil => ""
  | JsonKVList.cons k v JsonKVList.nil => quoteJson k ++ ": " ++ dumpsVal v
  | JsonKVList.cons k v (JsonKVList.cons k2 v2 kvs) =>
      quoteJson k ++ ": " ++ dumpsVal v ++ ", " ++
        dumpsObj (JsonKVList.cons k2 v2 kvs)

end

/-- `json.dumps(j)` with default arguments: one line, items separated by
", ", keys followed by ": ". -/
def dumps (j : Json) : String := dumpsVal j

def spacesN (n : Nat) : String := String.mk (List.replicate n ' ')

mutual

def ppVal : Nat → Json → String
  | _, Json.null => "null"
  | _, Json.bool b => cond b "true" "false"
  | _, Json.num q => numRepr q
  | _, Json.str s => quoteJson s
  | _, Json.arr JsonList.nil => "[]"
  | ind, Json.arr (JsonList.cons x xs) =>
      "[\n" ++ ppArr ind (JsonList.cons x xs) ++ "\n" ++ spacesN ind ++ "]"
  | _, Json.obj JsonKVList.nil => "\x7b\x7d"
  | ind, Json.obj (JsonKVList.cons k v kvs) =>
      "\x7b\n" ++ ppObj ind (JsonKVList.cons k v kvs) ++ "\n" ++
        spacesN ind ++ "\x7d"

def ppArr : Nat → JsonList → String
  | _, JsonList.nil => ""
  | ind, JsonList.cons x JsonList.nil => spacesN (ind + 2) ++ ppVal (ind + 2) x
  | ind, JsonList.cons x (JsonList.cons y ys) =>
      spacesN (ind + 2) ++ ppVal (ind + 2) x ++ ",\n" ++
        ppArr ind (JsonList.cons y ys)

def ppObj : Nat → JsonKVList → String
  | _, JsonKVList.nil => ""
  | ind, JsonKVList.cons k v JsonKVList.nil =>
      spacesN (ind + 2) ++ quoteJson k ++ ": " ++ ppVal (ind + 2) v
  | ind, JsonKVList.cons k v (JsonKVList.cons k2 v2 kvs) =>
      spacesN (ind + 2) ++ quoteJson k ++ ": " ++ ppVal (ind + 2) v ++ ",\n" ++
        ppObj ind (JsonKVList.cons k2 v2 kvs)

end

/-- `json.dumps(j, indent=2)`: the pretty-printed form every tool uses on
its success paths. -/
def dumpsIndent2 (j : Json) : String := ppVal 0 j

/-- The inline error objects the tools build: a one-key dict holding the
error message under the key "error". -/
def errorJson (msg : String) : Json := jObj [("error", Json.str msg)]

/-- Python dict assignment `d[k] = v` on a dict embedded as an ordered
association list: replaces the value in place when the key exists, appends
the pair otherwise. -/
def dictInsert (d : List (String × Json)) (k : String) (v : Json) :
    List (String × Json) :=
  if d.any (fun kv => kv.1 = k) then
    d.map (fun kv => if kv.1 = k then (k, v) else kv)
  else d ++ [(k, v)]

/-- Python `d.get(k)` on an embedded dict. -/
def objGet (d : List (String × Json)) (k : String) : Option Json :=
  (d.find? (fun kv => kv.1 = k)).map (fun kv => kv.2)

/-! The configuration model and the API client (`TargetProcessConfig`,
`TargetProcessClient.__init__` and the five request-building operations).
A request is embedded as the method, URL, headers, query parameters and
optional JSON body handed to `httpx`. -/

structure TargetProcessConfig where
  base_url : String
  token : Option String
  username : Option String
  password : Option String

/-- The base64 alphabet used by `base64.b64encode`. -/
def b64Alphabet : String :=
  "ABCDEFGHIJKLMNOPQRSTUVWXYZabcdefghijklmnopqrstuvwxyz0123456789+/"

def b64Char (n : Nat) : Char := b64Alphabet.toList.getD n 'A'

/-- `base64.b64encode` over a byte list, grouped three bytes at a time with
"=" padding. -/
def b64Chunks : List Nat → String
  | [] => ""
  | [a] =>
      String.mk [b64Char (a / 4), b64Char (a % 4 * 16)] ++ "=="
  | [a, b] =>
      String.mk [b64Char (a / 4), b64Char (a % 4 * 16 + b / 16),
        b64Char (b % 16 * 4)] ++ "="
  | a :: b :: c :: rest =>
      String.mk [b64Char (a / 4), b64Char (a % 4 * 16 + b / 16),
        b64Char (b % 16 * 4 + c / 64), b64Char (c % 64)] ++ b64Chunks rest

/-- `base64.b64encode(s.encode()).decode()`: base64 of the UTF-8 bytes. -/
def b64OfString (s : String) : String :=
  b64Chunks (s.toUTF8.toList.map (fun b => b.toNat))

/-- The client state `TargetProcessClient.__init__` builds: the
trailing-slash-stripped base URL, the v1 API root, the stored token, and
the static headers (plus a Basic Authorization header exactly when no token
is set and both username and password are truthy). -/
structure Client where
  base_url : String
  api_v1_url : String
  api_v2_url : String
  access_token : Option String
  headers : List (String × String)

def mkClient (config : TargetProcessConfig) : Client :=
  let base := config.base_url.dropRightWhile (fun c => c == '/')
  let headers := [("Accept", "application/json"), ("Content-Type", "application/json")]
  let headers :=
    if truthyStr config.token = false ∧ truthyStr config.username = true ∧
        truthyStr config.password = true then
      headers ++ [("Authorization",
        "Basic " ++ b64OfString (config.username.getD "" ++ ":" ++ config.password.getD ""))]
    else headers
  ⟨base, base ++ "/api/v1", base ++ "/api/v2", config.token, headers⟩

structure Request where
  httpMethod : String
  url : String
  headers : List (String × String)
  params : List (String × String)
  body : Option Json

/-- `params["access_token"] = ...` added exactly when `self.access_token`
is truthy, shared by all five operations. -/
def tokenParam (c : Client) : List (String × String) :=
  match c.access_token with
  | some t => if t.isEmpty then [] else [("access_token", t)]
  | none => []

/-- `if v: params[k] = v`: an optional query parameter added only when
truthy. -/
def optQueryParam (k : String) (v : Option String) : List (String × String) :=
  match v with
  | some s => if s.isEmpty then [] else [(k, s)]
  | none => []

/-- The GET request `TargetProcessClient.get_entities` sends. -/
def Client.get_entities_req (c : Client) (entity_type : String)
    (whereQ includeQ : Option String) (take : Int) : Request :=
  ⟨"GET", c.api_v1_url ++ "/" ++ entity_type, c.headers,
    [("format", "json"), ("take", toString take)] ++
      optQueryParam "where" whereQ ++ optQueryParam "include" includeQ ++ tokenParam c,
    none⟩

/-- The GET request `TargetProcessClient.get_entity_by_id` sends. -/
def Client.get_entity_by_id_req (c : Client) (entity_type : String)
    (entity_id : Int) (includeQ : Option String) : Request :=
  ⟨"GET", c.api_v1_url ++ "/" ++ entity_type ++ "/" ++ toString entity_id,
    c.headers,
    [("format", "json")] ++ optQueryParam "include" includeQ ++ tokenParam c,
    none⟩

/-- The POST request `TargetProcessClient.create_entity` sends. -/
def Client.create_entity_req (c : Client) (entity_type : String)
    (data : Json) : Request :=
  ⟨"POST", c.api_v1_url ++ "/" ++ entity_type, c.headers,
    [("format", "json")] ++ tokenParam c, some data⟩

/-- The POST request `TargetProcessClient.update_entity` sends (the remote
API updates via POST to the entity URL). -/
def Client.update_entity_req (c : Client) (entity_type : String)
    (entity_id : Int) (data : Json) : Request :=
  ⟨"POST", c.api_v1_url ++ "/" ++ entity_type ++ "/" ++ toString entity_id,
    c.headers, [("format", "json")] ++ tokenParam c, some data⟩

/-- The POST request `TargetProcessClient.add_comment` sends. -/
def Client.add_comment_req (c : Client) (entity_id : Int)
    (comment : String) : Request :=
  ⟨"POST", c.api_v1_url ++ "/Comment", c.headers,
    [("format", "json")] ++ tokenParam c,
    some (jObj [("Description", Json.str comment),
      ("General", jObj [("Id", Json.num entity_id)])])⟩

/-! `init_client`: configuration resolution. The environment and the JSON
config file are embedded as association lists of key/value pairs looked up
by name; `getenv` is `os.getenv`, and also serves as `config_data.get` on
the parsed file. The source reads only TARGETPROCESS_URL and
TARGETPROCESS_TOKEN (it never reads TARGETPROCESS_USERNAME or
TARGETPROCESS_PASSWORD), consults the file when either is missing, and
raises a ValueError (embedded as `Except.error` with the message) when the
URL or the token is absent after the merge. -/

def getenv (env : List (String × String)) (k : String) : Option String :=
  (env.find? (fun p => p.1 = k)).map (fun p => p.2)

/-- Python `a or b` on two optional strings: `a` when truthy, else `b`. -/
def pyOr (a b : Option String) : Option String :=
  if truthyStr a then a else b

def init_client (env file : List (String × String)) :
    Except String TargetProcessConfig :=
  let base_url := getenv env "TARGETPROCESS_URL"
  let token := getenv env "TARGETPROCESS_TOKEN"
  let merged :=
    if truthyStr base_url = false ∨ truthyStr token = false then
      (pyOr base_url (getenv file "TARGETPROCESS_URL"),
       pyOr token (getenv file "TARGETPROCESS_TOKEN"))
    else (base_url, token)
  if truthyStr merged.1 = false then
    Except.error
      "TARGETPROCESS_URL not found in environment variables or ~/.config/targetprocess/config.json"
  else if truthyStr merged.2 = false then
    Except.error
      "TARGETPROCESS_TOKEN is required (check environment variables or ~/.config/targetprocess/config.json)"
  else
    Except.ok ⟨merged.1.getD "", merged.2, none, none⟩

/-! Tool functions. Each remote call shape is a record; a tool receives one
oracle function per call shape it uses (mapping the call actually issued to
the remote response) and returns its output string together with the exact
list of calls it made, in order, so "performs zero update calls" and
"performs exactly one update call with payload p" are plain equations on
the trace. An oracle returning `Except.error msg` models a raised
exception (`httpx` errors and the like); tools that do not catch
exceptions are only modelled on non-raising oracles, `search_entities`,
which catches them, takes an `Except`-valued oracle. -/

structure GetEntitiesCall where
  entity_type : String
  whereQ : Option String
  includeQ : Option String
  take : Int
deriving DecidableEq

structure GetByIdCall where
  entity_type : String
  entity_id : Int
  includeQ : Option String
deriving DecidableEq

structure UpdateEntityCall where
  entity_type : String
  entity_id : Int
  data : Json

/-- An item of the EntityStates list responses: the source only ever reads
its "Id" field. -/
structure EntityStateItem where
  Id : Int
deriving DecidableEq

/-- The where clause `update_entity_state` builds for its state lookup. -/
def stateNameWhere (state_name : String) : String :=
  "Name eq '" ++ state_name ++ "'"

/-- The EntityStates lookup query of `update_entity_state`: exact name
match, `take=1`. -/
def stateLookupQuery (state_name : String) : GetEntitiesCall :=
  ⟨"EntityStates", some (stateNameWhere state_name), none, 1⟩

/-- The `{EntityState: {Id: state_id}}` update payload. -/
def entityStatePayload (state_id : Int) : Json :=
  jObj [("EntityState", jObj [("Id", Json.num state_id)])]

/-- `update_entity_state`. The lookup oracle maps the EntityStates query to
the `Items` field of the response (`none` when the key is missing); the
update oracle maps the update call to the remote payload it returns.
Result: output string, list queries issued, update calls issued. -/
def update_entity_state (entity_type : String) (entity_id : Int)
    (state_name : String)
    (lookup : GetEntitiesCall → Option (List EntityStateItem))
    (updResp : UpdateEntityCall → Json) :
    String × List GetEntitiesCall × List UpdateEntityCall :=
  let q := stateLookupQuery state_name
  match (lookup q).getD [] with
  | [] =>
      (dumps (errorJson ("State '" ++ state_name ++ "' not found")), [q], [])
  | st :: _ =>
      let u : UpdateEntityCall := ⟨entity_type, entity_id, entityStatePayload st.Id⟩
      (dumpsIndent2 (updResp u), [q], [u])

/-- The entity read `update_time_spent` performs. -/
def timeSpentReadCall (entity_type : String) (entity_id : Int) : GetByIdCall :=
  ⟨entity_type, entity_id, some "[TimeSpent]"⟩

/-- `update_time_spent`. The read oracle gives the `TimeSpent` field of the
fetched entity (`none` for missing or null, which the source coerces to 0
via `entity.get("TimeSpent", 0) or 0`). -/
def update_time_spent (entity_type : String) (entity_id : Int) (hours : Rat)
    (readTimeSpent : GetByIdCall → Option Rat)
    (updResp : UpdateEntityCall → Json) :
    String × List GetByIdCall × List UpdateEntityCall :=
  let g := timeSpentReadCall entity_type entity_id
  let current := (readTimeSpent g).getD 0
  let u : UpdateEntityCall :=
    ⟨entity_type, entity_id, jObj [("TimeSpent", Json.num (current + hours))]⟩
  (dumpsIndent2 (updResp u), [g], [u])

/-! `search_entities`. -/

def searchQueryWhere (query : String) : String :=
  "Name contains '" ++ query ++ "' or Description contains '" ++ query ++ "'"

def searchInclude : String := "[Id,Name,EntityState,Project[Name]]"

def searchQueryCall (query : String) (entity_type : String) (limit : Int) :
    GetEntitiesCall :=
  ⟨entity_type, some (searchQueryWhere query), some searchInclude, limit⟩

def defaultSearchTypes : List String := ["UserStories", "Tasks", "Bugs"]

/-- One entity type's slot in the `search_entities` result dict: the item
array on success (`result.get("Items", [])`), the caught exception's
message wrapped as an error object on failure. -/
def searchSlot (oracle : GetEntitiesCall → Except String (Option (List Json)))
    (query : String) (limit : Int) (entity_type : String) : Json :=
  match oracle (searchQueryCall query entity_type limit) with
  | Except.ok items => jArr (items.getD [])
  | Except.error e => errorJson e

/-- `search_entities`: one list query per requested entity type (defaulting
to UserStories, Tasks, Bugs when the argument is absent or empty), each
failure caught and stored inline, the dict of all slots serialized with
indent 2. Returns the output string and the result dict. -/
def search_entities (query : String) (entity_types : Option (List String))
    (limit : Int)
    (oracle : GetEntitiesCall → Except String (Option (List Json))) :
    String × List (String × Json) :=
  let types :=
    match entity_types with
    | none => defaultSearchTypes
    | some l => if l.isEmpty then defaultSearchTypes else l
  let results := types.foldl
    (fun acc t => dictInsert acc t (searchSlot oracle query limit t)) []
  (dumpsIndent2 (jObj results), results)

/-! `get_entity_states`. -/

/-- An item of the EntityStates response as `get_entity_states` reads it:
"Id" and "Name" are accessed directly, "NumericPriority" defaults to 0 when
missing, the "Process" name defaults to "Unknown" when the process or its
name is missing. -/
structure StateRaw where
  Id : Int
  Name : String
  NumericPriority : Option Rat
  ProcessName : Option String
deriving DecidableEq

/-- The reformatted state dicts `get_entity_states` builds. -/
structure FormattedState where
  Id : Int
  Name : String
  Priority : Rat
  Process : String
deriving DecidableEq

def formatState (s : StateRaw) : FormattedState :=
  ⟨s.Id, s.Name, s.NumericPriority.getD 0, s.ProcessName.getD "Unknown"⟩

def formattedStateJson (f : FormattedState) : Json :=
  jObj [("Id", Json.num f.Id), ("Name", Json.str f.Name),
    ("Priority", Json.num f.Priority), ("Process", Json.str f.Process)]

/-- The sort key of `sorted(formatted_states, key=lambda x: x["Priority"])`. -/
def stateLE (a b : FormattedState) : Prop := a.Priority ≤ b.Priority

instance : DecidableRel stateLE :=
  fun a b => inferInstanceAs (Decidable (a.Priority ≤ b.Priority))

instance : IsTotal FormattedState stateLE :=
  ⟨fun a b => le_total a.Priority b.Priority⟩

instance : IsTrans FormattedState stateLE :=
  ⟨fun _ _ _ h1 h2 => le_trans h1 h2⟩

/-- The formatted, priority-sorted item list `get_entity_states` returns:
`sorted` in Python is a stable comparison sort, embedded as the stable
`List.insertionSort`. -/
def get_entity_states_items (items : List StateRaw) : List FormattedState :=
  List.insertionSort stateLE (items.map formatState)

/-- The response object after the `if result.get("Items"):` post-processing
step: a missing Items key passes through, an empty Items list passes
through, a nonempty one is reformatted and sorted ascending by priority. -/
def get_entity_states_result (resp : Option (List StateRaw)) : Json :=
  match resp with
  | none => jObj []
  | some [] => jObj [("Items", jArr [])]
  | some (s :: rest) =>
      jObj [("Items",
        jArr ((get_entity_states_items (s :: rest)).map formattedStateJson))]

def statesInclude : String :=
  "[Id,Name,NumericPriority,Process[Id,Name],EntityType[Name]]"

/-- The where clauses of `get_entity_states`: the EntityType clause always,
a Process.Id clause when `process_id` is truthy, else (when `project_id` is
truthy) one looked up through the project's process. `projLookup` maps the
Projects read to `project["Process"]["Id"]` when the project and its
"Process" field are truthy, `none` otherwise. -/
def get_entity_states_clauses (entity_type : String)
    (process_id project_id : Option Int)
    (projLookup : GetByIdCall → Option Int) : List String :=
  let base := "EntityType.Name eq '" ++ entity_type ++ "'"
  if truthyInt process_id then
    [base, "Process.Id eq " ++ toString (process_id.getD 0)]
  else if truthyInt project_id then
    match projLookup ⟨"Projects", project_id.getD 0, some "[Process]"⟩ with
    | some procId => [base, "Process.Id eq " ++ toString procId]
    | none => [base]
  else [base]

/-- `get_entity_states`: returns the output string and the result object it
serializes. `statesLookup` maps the EntityStates query to the `Items` field
of the remote response. -/
def get_entity_states_core (entity_type : String)
    (process_id project_id : Option Int)
    (projLookup : GetByIdCall → Option Int)
    (statesLookup : GetEntitiesCall → Option (List StateRaw)) :
    String × Json :=
  let whereStr :=
    String.intercalate " and "
      (get_entity_states_clauses entity_type process_id project_id projLookup)
  let resp := statesLookup ⟨"EntityStates", some whereStr, some statesInclude, 100⟩
  let result := get_entity_states_result resp
  (dumpsIndent2 result, result)

/-! `delete_entity`. -/

/-- `suffix in s`-style `str.endswith(suffix)`, computed on the character
lists (Lean's own `String.endsWith` does not reduce definitionally). -/
def strEndsWith (s suffix : String) : Bool :=
  List.isSuffixOf suffix.toList s.toList

/-- `entity_plural`: the source appends "s" unless the name already ends in
"ies" (so "UserStory" becomes "UserStorys", faithfully to the source). -/
def pluralize (entity_type : String) : String :=
  if strEndsWith entity_type "ies" then entity_type else entity_type ++ "s"

/-- What `delete_entity` reads off the fetched entity:
`entity.get("Project", {}).get("Process", {}).get("Id")`. -/
structure EntityInfo where
  projectProcessId : Option Int
deriving DecidableEq

def doneStateNames : List String := ["Done", "Completed", "Closed"]

def deletedStateNames : List String := ["Deleted", "Cancelled", "Rejected"]

/-- The per-candidate EntityStates query of `delete_entity`. -/
def deleteStateQuery (entity_type : String) (process_id : Int)
    (state_name : String) : GetEntitiesCall :=
  ⟨"EntityStates",
    some ("EntityType.Name eq '" ++ entity_type ++ "' and Process.Id eq " ++
      toString process_id ++ " and Name eq '" ++ state_name ++ "'"),
    none, 1⟩

/-- The `for state_name in state_names:` loop of `delete_entity`: probe the
candidate names in order; on the first whose query returns items, issue one
update to that state id, annotate the returned payload with the Note key
and pretty-print it; when none matches, fall back to `get_entity_states`
(whose serialized output the source parses right back with `json.loads`,
embedded here as using the result object directly) and return a compact
error object carrying the available states. -/
def deleteFallbackItems (entity_type : String) (pid : Int)
    (statesLookup : GetEntitiesCall → Option (List StateRaw)) : Json :=
  match (get_entity_states_core entity_type (some pid) none
      (fun _ => none) statesLookup).2 with
  | Json.obj kvs_ => (objGet (kvListToList kvs_) "Items").getD (jArr [])
  | _ => jArr []

/-- The error object of `delete_entity`'s no-state fallback, carrying the
available states for the entity type and process. -/
def deleteFallbackJson (entity_type : String) (pid : Int)
    (statesLookup : GetEntitiesCall → Option (List StateRaw)) : Json :=
  jObj
    [("error", Json.str ("No suitable deletion state found for " ++
        entity_type ++ " in this process")),
     ("available_states", deleteFallbackItems entity_type pid statesLookup)]

def probeDeleteStates (plural entity_type : String) (entity_id pid : Int)
    (lookup : GetEntitiesCall → Option (List EntityStateItem))
    (updResp : UpdateEntityCall → List (String × Json))
    (statesLookup : GetEntitiesCall → Option (List StateRaw)) :
    List String → String × List UpdateEntityCall
  | [] =>
      (dumps (deleteFallbackJson entity_type pid statesLookup), [])
  | n :: rest =>
      match (lookup (deleteStateQuery entity_type pid n)).getD [] with
      | [] =>
          probeDeleteStates plural entity_type entity_id pid lookup updResp
            statesLookup rest
      | st :: _ =>
          let u : UpdateEntityCall := ⟨plural, entity_id, entityStatePayload st.Id⟩
          let result := dictInsert (updResp u) "Note"
            (Json.str ("Entity marked as " ++ n))
          (dumpsIndent2 (jObj result), [u])

/-- `delete_entity`: fetch the entity (plural endpoint, include
Project[Process]), resolve the owning process id, then probe the candidate
state names (Done/Completed/Closed, or Deleted/Cancelled/Rejected when
`use_done_state` is false). Returns the output string and the update calls
issued. -/
def delete_entity (entity_type : String) (entity_id : Int)
    (use_done_state : Bool)
    (getById : GetByIdCall → Option EntityInfo)
    (lookup : GetEntitiesCall → Option (List EntityStateItem))
    (updResp : UpdateEntityCall → List (String × Json))
    (statesLookup : GetEntitiesCall → Option (List StateRaw)) :
    String × List UpdateEntityCall :=
  let plural := pluralize entity_type
  match getById ⟨plural, entity_id, some "[Project[Process]]"⟩ with
  | none =>
      (dumps (errorJson (entity_type ++ " " ++ toString entity_id ++ " not found")), [])
  | some info =>
      let pid := (info.projectProcessId).getD 0
      if pid = 0 then
        (dumps (errorJson "Could not determine process for entity"), [])
      else
        probeDeleteStates plural entity_type entity_id pid lookup updResp
          statesLookup
          (if use_done_state then doneStateNames else deletedStateNames)

/-! Payload construction of `create_task` and `update_user_story`: a dict
built field by field, each `if arg:` guard adding its field only when the
argument is truthy — except `update_user_story`'s effort, guarded by
`if effort is not None:`. -/

/-- `create_task`'s payload: Name and UserStory always; Description,
AssignedUser and Effort only when truthy (an effort of 0.0 is dropped). -/
def create_task_data (name : String) (story_id : Int)
    (description : Option String) (assigned_user_id : Option Int)
    (effort : Option Rat) : List (String × Json) :=
  [("Name", Json.str name), ("UserStory", jObj [("Id", Json.num story_id)])] ++
  (match description with
   | some d => if d.isEmpty then [] else [("Description", Json.str d)]
   | none => []) ++
  (match assigned_user_id with
   | some u => if u = 0 then [] else [("AssignedUser", jObj [("Id", Json.num u)])]
   | none => []) ++
  (match effort with
   | some e => if e = 0 then [] else [("Effort", Json.num e)]
   | none => [])

/-- `update_user_story`'s payload: every field truthiness-guarded except
Effort, which is included whenever the argument is supplied, 0.0 included
(`if effort is not None:`). -/
def update_user_story_data (name description : Option String)
    (state_id : Option Int) (effort : Option Rat)
    (iteration_id : Option Int) : List (String × Json) :=
  (match name with
   | some s => if s.isEmpty then [] else [("Name", Json.str s)]
   | none => []) ++
  (match description with
   | some s => if s.isEmpty then [] else [("Description", Json.str s)]
   | none => []) ++
  (match state_id with
   | some n => if n = 0 then [] else [("EntityState", jObj [("Id", Json.num n)])]
   | none => []) ++
  (match effort with
   | some e => [("Effort", Json.num e)]
   | none => []) ++
  (match iteration_id with
   | some n => if n = 0 then [] else [("Iteration", jObj [("Id", Json.num n)])]
   | none => [])

/-- `update_user_story`: compact inline error when no field is present,
otherwise exactly one update call on UserStories with the built payload. -/
def update_user_story (story_id : Int) (name description : Option String)
    (state_id : Option Int) (effort : Option Rat) (iteration_id : Option Int)
    (updResp : UpdateEntityCall → Json) : String × List UpdateEntityCall :=
  let data := update_user_story_data name description state_id effort iteration_id
  if data.isEmpty then
    (dumps (errorJson "No fields to update"), [])
  else
    let u : UpdateEntityCall := ⟨"UserStories", story_id, jObj data⟩
    (dumpsIndent2 (updResp u), [u])

/-! Theorems. Each claim C1..C10 of the specification review has exactly
one theorem below (with a witness or counterexample where called for). -/

theorem presentOnes_specOfStr (a : Option String) (f : String → String)
    (rest : List (Option String)) :
    presentOnes (specOfStr a f :: rest) = strClause a f ++ presentOnes rest := by
  cases a with
  | none => simp [specOfStr, strClause, presentOnes]
  | some s =>
      simp only [specOfStr, strClause]
      split <;> simp [presentOnes]

theorem presentOnes_specOfInt (a : Option Int) (f : Int → String)
    (rest : List (Option String)) :
    presentOnes (specOfInt a f :: rest) = intClause a f ++ presentOnes rest := by
  cases a with
  | none => simp [specOfInt, intClause, presentOnes]
  | some n =>
      simp only [specOfInt, intClause]
      split <;> simp [presentOnes]

theorem presentOnes_ifsome (b : Bool) (c : String)
    (rest : List (Option String)) :
    presentOnes ((if b then some c else none) :: rest) =
      (if b then [c] else []) ++ presentOnes rest := by
  cases b <;> simp [presentOnes]

/-- C1, counterexample: with both user_id and user_email supplied,
`list_assignments` drops the user_email clause (the source's `elif`), while
the claim's "every present argument contributes exactly one AND-joined
clause" construction keeps both, so the claim as stated fails on
`list_assignments`. -/
theorem C1_assignments_counterexample :
    list_assignments_where (some 7) (some "a@b.c") none none none =
      some "GeneralUser.Id eq 7" ∧
    claim_assignments_where (some 7) (some "a@b.c") none none none =
      some "GeneralUser.Id eq 7 and GeneralUser.Email eq 'a@b.c'" ∧
    list_assignments_where (some 7) (some "a@b.c") none none none ≠
      claim_assignments_where (some 7) (some "a@b.c") none none none := by
  refine ⟨rfl, rfl, ?_⟩
  decide

/-- C1, amended: for each of the five list tools, the filter string passed
to the client is exactly the clauses of the present (truthy) arguments,
joined by " and " in the fixed per-tool order with the caller-supplied
where_clause first, and is omitted (None) when no clause is present —
except that in `list_assignments` the user_email argument contributes its
clause only when user_id is absent (user_id wins the `elif`). -/
theorem C1_list_filters_amended :
    (∀ (pid iid : Option Int) (st asg wc : Option String),
      list_user_stories_where pid iid st asg wc =
        specJoin [specOfStr wc (fun w => w), specOfInt pid fmtProjectId,
          specOfInt iid fmtIterationId, specOfStr st fmtState,
          specOfStr asg fmtAssigned]) ∧
    (∀ (sid : Option Int) (asg st wc : Option String),
      list_tasks_where sid asg st wc =
        specJoin [specOfStr wc (fun w => w), specOfInt sid fmtStoryId,
          specOfStr st fmtState, specOfStr asg fmtAssigned]) ∧
    (∀ (pid : Option Int) (st sev asg wc : Option String),
      list_bugs_where pid st sev asg wc =
        specJoin [specOfStr wc (fun w => w), specOfInt pid fmtProjectId,
          specOfStr st fmtState, specOfStr sev fmtSeverity,
          specOfStr asg fmtAssigned]) ∧
    (∀ (pid : Option Int) (cur : Bool),
      list_iterations_where pid cur =
        specJoin [specOfInt pid fmtProjectId,
          (if cur then some "IsCurrent eq 'true'" else none)]) ∧
    (∀ (uid : Option Int) (uem et st : Option String) (pid : Option Int),
      list_assignments_where uid uem et st pid =
        specJoin [specOfInt uid fmtUserId,
          (if truthyInt uid then none else specOfStr uem fmtUserEmail),
          specOfStr et fmtAsgType, specOfStr st fmtAsgState,
          specOfInt pid fmtAsgProject]) := by
  refine ⟨?_, ?_, ?_, ?_, ?_⟩
  · intro pid iid st asg wc
    simp only [list_user_stories_where, specJoin, presentOnes_specOfStr,
      presentOnes_specOfInt, presentOnes, List.append_assoc, List.append_nil]
  · intro sid asg st wc
    simp only [list_tasks_where, specJoin, presentOnes_specOfStr,
      presentOnes_specOfInt, presentOnes, List.append_assoc, List.append_nil]
  · intro pid st sev asg wc
    simp only [list_bugs_where, specJoin, presentOnes_specOfStr,
      presentOnes_specOfInt, presentOnes, List.append_assoc, List.append_nil]
  · intro pid cur
    cases cur <;>
      simp [list_iterations_where, specJoin, presentOnes,
        presentOnes_specOfInt, presentOnes_ifsome, List.append_assoc]
  · intro uid uem et st pid
    have step : specJoin [specOfInt uid fmtUserId,
          (if truthyInt uid then none else specOfStr uem fmtUserEmail),
          specOfStr et fmtAsgType, specOfStr st fmtAsgState,
          specOfInt pid fmtAsgProject] =
        joinWhere (intClause uid fmtUserId ++
          ((if truthyInt uid then [] else strClause uem fmtUserEmail) ++
            (strClause et fmtAsgType ++ (strClause st fmtAsgState ++
              intClause pid fmtAsgProject)))) := by
      cases h : truthyInt uid <;>
        simp [specJoin, presentOnes_specOfStr, presentOnes_specOfInt,
          presentOnes, List.append_assoc]
    rw [step]
    rcases uid with _ | n
    · simp [list_assignments_where, truthyInt, intClause, List.append_assoc]
    · by_cases hn : n = 0
      · subst hn
        simp [list_assignments_where, truthyInt, intClause, List.append_assoc]
      · simp [list_assignments_where, truthyInt, hn, intClause,
          List.append_assoc]

/-- C2: the claim says configuration resolution succeeds when a username
and password are supplied without a token (a complete auth method). The
code disagrees: `init_client` reads only TARGETPROCESS_URL and
TARGETPROCESS_TOKEN and raises "TARGETPROCESS_TOKEN is required ..."
whenever the token is absent, whatever username/password are set — against
the spec, against the repository's own tests
(test_init_client_with_username_password, test_missing_auth_raises_error),
against `main`'s guidance message and against the Basic-auth support in
`TargetProcessClient.__init__`. This theorem evaluates the embedded code
at the failing input: URL, username and password set, no token. -/
theorem C2_username_password_rejected : ∀ (u p : String),
    init_client [("TARGETPROCESS_URL", "https://example.tpondemand.com"),
      ("TARGETPROCESS_USERNAME", u), ("TARGETPROCESS_PASSWORD", p)] [] =
      Except.error "TARGETPROCESS_TOKEN is required (check environment variables or ~/.config/targetprocess/config.json)" := by
  intro u p
  rfl

/-- C3: `update_entity_state` issues exactly one EntityStates list query
(exact name match, take=1); when it yields zero items the tool performs
zero update calls and returns the compact JSON error string for the state
name, and when it yields an item the tool performs exactly one update call
with payload EntityState.Id set to the resolved id. -/
theorem C3_update_entity_state_behavior (et : String) (eid : Int)
    (sname : String)
    (lookup : GetEntitiesCall → Option (List EntityStateItem))
    (upd : UpdateEntityCall → Json) :
    ((lookup (stateLookupQuery sname)).getD [] = [] →
      update_entity_state et eid sname lookup upd =
        (dumps (errorJson ("State '" ++ sname ++ "' not found")),
         [stateLookupQuery sname], [])) ∧
    (∀ st rest, (lookup (stateLookupQuery sname)).getD [] = st :: rest →
      update_entity_state et eid sname lookup upd =
        (dumpsIndent2 (upd ⟨et, eid, entityStatePayload st.Id⟩),
         [stateLookupQuery sname],
         [⟨et, eid, entityStatePayload st.Id⟩])) := by
  constructor
  · intro h
    simp [update_entity_state, h]
  · intro st rest h
    simp [update_entity_state, h]

/-- C3 witness: a concrete run against a lookup oracle returning zero
items: the output is the literal compact error string and the update trace
is empty, while the one list query issued is the exact-name take=1 query. -/
theorem C3_update_entity_state_behavior_witness :
    update_entity_state "Task" 789 "Ghost" (fun _ => some [])
        (fun _ => Json.null) =
      ("\x7b\"error\": \"State 'Ghost' not found\"\x7d",
       [⟨"EntityStates", some "Name eq 'Ghost'", none, 1⟩], []) := by
  have h := (C3_update_entity_state_behavior "Task" 789 "Ghost"
    (fun _ => some []) (fun _ => Json.null)).1 rfl
  exact h.trans (by rfl)

/-- C4: `update_time_spent` performs exactly one read of the entity's
TimeSpent field (include "[TimeSpent]") followed by exactly one update
whose payload is TimeSpent set to current + hours, a missing or null
current value counting as 0; in particular with current 5 and hours 3 the
single update payload is TimeSpent 8. -/
theorem C4_update_time_spent_read_add_write (et : String) (eid : Int)
    (hours : Rat) (readTS : GetByIdCall → Option Rat)
    (upd : UpdateEntityCall → Json) :
    update_time_spent et eid hours readTS upd =
      (dumpsIndent2 (upd ⟨et, eid,
          jObj [("TimeSpent",
            Json.num ((readTS (timeSpentReadCall et eid)).getD 0 + hours))]⟩),
       [timeSpentReadCall et eid],
       [⟨et, eid, jObj [("TimeSpent",
          Json.num ((readTS (timeSpentReadCall et eid)).getD 0 + hours))]⟩]) ∧
    (∀ upd2 : UpdateEntityCall → Json,
      (update_time_spent "Task" 456 3 (fun _ => some 5) upd2).2.2 =
        [⟨"Task", 456, jObj [("TimeSpent", Json.num 8)]⟩]) := by
  refine ⟨rfl, fun upd2 => ?_⟩
  have h8 : (5 : Rat) + 3 = 8 := by norm_num
  simp [update_time_spent, timeSpentReadCall, h8]

/-- C5: `search_entities` with the default entity-type set issues one list
query per type; the result dict has exactly the three requested keys in
order, a failing type's slot holds the error object for the caught
exception message, a succeeding type's slot holds its item array, and the
call as a whole is total over any outcome pattern of the per-type oracle
(illustrated at the end with one failure out of three). -/
theorem C5_search_entities_partial_failure (query : String) (limit : Int)
    (oracle : GetEntitiesCall → Except String (Option (List Json))) :
    ((search_entities query none limit oracle).2.map Prod.fst =
      ["UserStories", "Tasks", "Bugs"]) ∧
    ((search_entities query none limit oracle).2 =
      [("UserStories", searchSlot oracle query limit "UserStories"),
       ("Tasks", searchSlot oracle query limit "Tasks"),
       ("Bugs", searchSlot oracle query limit "Bugs")]) ∧
    (∀ e, searchSlot (fun _ => Except.error e) query limit "Tasks" =
      errorJson e) ∧
    (∀ items, searchSlot (fun _ => Except.ok items) query limit "Tasks" =
      jArr (items.getD [])) ∧
    ((search_entities query none limit
        (fun c => if c.entity_type = "Tasks" then Except.error "boom"
          else Except.ok (some []))).2 =
      [("UserStories", jArr []), ("Tasks", errorJson "boom"),
       ("Bugs", jArr [])]) := by
  exact ⟨rfl, rfl, fun e => rfl, fun items => rfl, rfl⟩

/-- C7: the item list `get_entity_states` returns is sorted ascending by
the numeric priority (missing priorities formatted as 0) and is a
permutation of the formatted remote items, whatever order the remote API
returned them in; the response object embeds exactly that sorted list, and
a concrete out-of-order input is reordered. -/
theorem C7_get_entity_states_sorted (items : List StateRaw) :
    List.Sorted stateLE (get_entity_states_items items) ∧
    List.Perm (get_entity_states_items items) (items.map formatState) ∧
    (∀ s rest, get_entity_states_result (some (s :: rest)) =
      jObj [("Items",
        jArr ((get_entity_states_items (s :: rest)).map formattedStateJson))]) ∧
    (get_entity_states_items [⟨2, "Done", some 10, none⟩,
        ⟨1, "New", some 1, some "Scrum"⟩] =
      [⟨1, "New", 1, "Scrum"⟩, ⟨2, "Done", 10, "Unknown"⟩]) := by
  refine ⟨List.sorted_insertionSort stateLE _,
    List.perm_insertionSort stateLE _, fun s rest => rfl, by decide⟩

theorem probeDeleteStates_all_empty (plural et : String) (eid pid : Int)
    (lookup : GetEntitiesCall → Option (List EntityStateItem))
    (upd : UpdateEntityCall → List (String × Json))
    (statesLk : GetEntitiesCall → Option (List StateRaw)) :
    ∀ names : List String,
      (∀ m ∈ names, (lookup (deleteStateQuery et pid m)).getD [] = []) →
      probeDeleteStates plural et eid pid lookup upd statesLk names =
        (dumps (deleteFallbackJson et pid statesLk), []) := by
  intro names
  induction names with
  | nil => intro _; rfl
  | cons n rest ih =>
      intro h
      have hn := h n (List.mem_cons_self n rest)
      have step : probeDeleteStates plural et eid pid lookup upd statesLk
          (n :: rest) =
          probeDeleteStates plural et eid pid lookup upd statesLk rest := by
        simp [probeDeleteStates, hn]
      rw [step]
      exact ih (fun m hm => h m (List.mem_cons_of_mem n hm))

theorem probeDeleteStates_first_match (plural et : String) (eid pid : Int)
    (lookup : GetEntitiesCall → Option (List EntityStateItem))
    (upd : UpdateEntityCall → List (String × Json))
    (statesLk : GetEntitiesCall → Option (List StateRaw))
    (n : String) (st : EntityStateItem) (rest' : List EntityStateItem) :
    ∀ pre post : List String,
      (∀ m ∈ pre, (lookup (deleteStateQuery et pid m)).getD [] = []) →
      (lookup (deleteStateQuery et pid n)).getD [] = st :: rest' →
      probeDeleteStates plural et eid pid lookup upd statesLk
          (pre ++ n :: post) =
        (dumpsIndent2 (jObj (dictInsert
            (upd ⟨plural, eid, entityStatePayload st.Id⟩)
            "Note" (Json.str ("Entity marked as " ++ n)))),
         [⟨plural, eid, entityStatePayload st.Id⟩]) := by
  intro pre
  induction pre with
  | nil =>
      intro post _ hn
      simp [probeDeleteStates, hn]
  | cons m ms ih =>
      intro post hpre hn
      have hm := hpre m (List.mem_cons_self m ms)
      have step : probeDeleteStates plural et eid pid lookup upd statesLk
          ((m :: ms) ++ n :: post) =
          probeDeleteStates plural et eid pid lookup upd statesLk
            (ms ++ n :: post) := by
        simp [probeDeleteStates, hm]
      rw [step]
      exact ih post (fun x hx => hpre x (List.mem_cons_of_mem m hx)) hn

/-- C6: `delete_entity` resolves the entity's owning process (one read with
include Project[Process] against the pluralized endpoint), then probes the
candidate state names in the fixed order Done, Completed, Closed (or
Deleted, Cancelled, Rejected when use_done_state is false); the first name
whose state query returns an item triggers exactly one update call setting
that state id, and the returned payload is annotated with the Note key
"Entity marked as <name>"; when no candidate matches, the tool performs no
update and returns an error object carrying the available states. -/
theorem C6_delete_entity_soft_delete (et : String) (eid : Int) (useDone : Bool)
    (getById : GetByIdCall → Option EntityInfo)
    (lookup : GetEntitiesCall → Option (List EntityStateItem))
    (upd : UpdateEntityCall → List (String × Json))
    (statesLk : GetEntitiesCall → Option (List StateRaw))
    (info : EntityInfo) (pid : Int)
    (hent : getById ⟨pluralize et, eid, some "[Project[Process]]"⟩ = some info)
    (hpid : info.projectProcessId = some pid) (hpid0 : pid ≠ 0) :
    (∀ (pre post : List String) (n : String) (st : EntityStateItem)
        (rest' : List EntityStateItem),
      (if useDone then doneStateNames else deletedStateNames) = pre ++ n :: post →
      (∀ m ∈ pre, (lookup (deleteStateQuery et pid m)).getD [] = []) →
      (lookup (deleteStateQuery et pid n)).getD [] = st :: rest' →
      delete_entity et eid useDone getById lookup upd statesLk =
        (dumpsIndent2 (jObj (dictInsert
            (upd ⟨pluralize et, eid, entityStatePayload st.Id⟩)
            "Note" (Json.str ("Entity marked as " ++ n)))),
         [⟨pluralize et, eid, entityStatePayload st.Id⟩])) ∧
    ((∀ m ∈ (if useDone then doneStateNames else deletedStateNames),
        (lookup (deleteStateQuery et pid m)).getD [] = []) →
      delete_entity et eid useDone getById lookup upd statesLk =
        (dumps (deleteFallbackJson et pid statesLk), [])) := by
  have hd : delete_entity et eid useDone getById lookup upd statesLk =
      probeDeleteStates (pluralize et) et eid pid lookup upd statesLk
        (if useDone then doneStateNames else deletedStateNames) := by
    simp [delete_entity, hent, hpid, hpid0]
  constructor
  · intro pre post n st rest' hsplit hpre hn
    rw [hd, hsplit]
    exact probeDeleteStates_first_match (pluralize et) et eid pid lookup upd
      statesLk n st rest' pre post hpre hn
  · intro hall
    rw [hd]
    exact probeDeleteStates_all_empty (pluralize et) et eid pid lookup upd
      statesLk _ hall

/-- C6 witness: a concrete run where the entity's process is 7 and the
"Done" probe matches state id 5: one update call on the pluralized
endpoint, and the updated payload comes back annotated with the Note. -/
theorem C6_delete_entity_soft_delete_witness :
    delete_entity "UserStory" 123 true
      (fun _ => some ⟨some 7⟩)
      (fun q => if q = deleteStateQuery "UserStory" 7 "Done" then
          some [⟨5⟩] else some [])
      (fun _ => [("Id", Json.num 123)])
      (fun _ => none) =
      ("\x7b\n  \"Id\": 123,\n  \"Note\": \"Entity marked as Done\"\n\x7d",
       [⟨"UserStorys", 123, entityStatePayload 5⟩]) := by
  have h := (C6_delete_entity_soft_delete "UserStory" 123 true
    (fun _ => some ⟨some 7⟩)
    (fun q => if q = deleteStateQuery "UserStory" 7 "Done" then
        some [⟨5⟩] else some [])
    (fun _ => [("Id", Json.num 123)])
    (fun _ => none) ⟨some 7⟩ 7 rfl rfl (by decide)).1
    [] ["Completed", "Closed"] "Done" ⟨5⟩ [] rfl
    (fun m hm => absurd hm (List.not_mem_nil m)) rfl
  exact h.trans (by rfl)

/-- The request carries a query-string token. -/
def sendsTokenParam (r : Request) : Bool :=
  r.params.any (fun p => p.1 = "access_token")

/-- The request carries a Basic Authorization header. -/
def sendsBasicHeader (r : Request) : Bool :=
  r.headers.any (fun p => p.1 = "Authorization")

/-- The client is in username/password mode: no truthy token, both
credentials truthy (the condition of the Basic-header branch of
`TargetProcessClient.__init__`). -/
def credMode (cfg : TargetProcessConfig) : Bool :=
  !truthyStr cfg.token && (truthyStr cfg.username && truthyStr cfg.password)

/-- Exactly one auth mechanism per request: a token-configured client sends
the access_token parameter and no Authorization header, a
credential-configured client sends the Basic header and no token
parameter, and the two never combine. -/
def authExclusive (cfg : TargetProcessConfig) (r : Request) : Prop :=
  (truthyStr cfg.token = true →
    sendsTokenParam r = true ∧ sendsBasicHeader r = false) ∧
  (truthyStr cfg.token = false → truthyStr cfg.username = true →
    truthyStr cfg.password = true →
    sendsBasicHeader r = true ∧ sendsTokenParam r = false) ∧
  ¬(sendsTokenParam r = true ∧ sendsBasicHeader r = true)

theorem any_access_token_optQueryParam (k : String) (v : Option String)
    (hk : k ≠ "access_token") :
    (optQueryParam k v).any (fun p => p.1 = "access_token") = false := by
  cases v with
  | none => rfl
  | some s =>
      simp only [optQueryParam]
      split
      · rfl
      · simp [hk]

theorem mkClient_access_token (cfg : TargetProcessConfig) :
    (mkClient cfg).access_token = cfg.token := rfl

theorem tokenParam_any (cfg : TargetProcessConfig) :
    (tokenParam (mkClient cfg)).any (fun p => p.1 = "access_token") =
      truthyStr cfg.token := by
  rcases cfg with ⟨bu, tok, un, pw⟩
  cases tok with
  | none => rfl
  | some t =>
      simp only [tokenParam, mkClient_access_token, truthyStr]
      split
      · simp_all
      · simp_all

theorem sendsTokenParam_eq (cfg : TargetProcessConfig)
    (pre : List (String × String))
    (hpre : pre.any (fun p => p.1 = "access_token") = false) :
    ((pre ++ tokenParam (mkClient cfg)).any (fun p => p.1 = "access_token")) =
      truthyStr cfg.token := by
  rw [List.any_append, hpre, tokenParam_any]
  rfl

theorem sendsBasicHeader_eq (cfg : TargetProcessConfig) :
    ((mkClient cfg).headers.any (fun p => p.1 = "Authorization")) =
      credMode cfg := by
  rcases cfg with ⟨bu, tok, un, pw⟩
  simp only [mkClient, credMode]
  split
  · rename_i h
    obtain ⟨h1, h2, h3⟩ := h
    simp [h1, h2, h3]
  · rename_i h
    simp only [not_and_or] at h
    rcases h with h | h | h <;> simp [eq_false_of_ne_true, h]

theorem authExclusive_of (cfg : TargetProcessConfig) (r : Request)
    (hp : sendsTokenParam r = truthyStr cfg.token)
    (hh : sendsBasicHeader r = credMode cfg) :
    authExclusive cfg r := by
  refine ⟨?_, ?_, ?_⟩
  · intro ht
    rw [hp, hh, ht]
    exact ⟨rfl, by simp [credMode, ht]⟩
  · intro h1 h2 h3
    rw [hp, hh, h1]
    exact ⟨by simp [credMode, h1, h2, h3], rfl⟩
  · rintro ⟨h1, h2⟩
    rw [hp] at h1
    rw [hh] at h2
    simp [credMode, h1] at h2

/-- C8: for every configured client and each of the five client operations
(list, get, create, update, comment), exactly one authentication mechanism
is attached: a token-configured client sends the access_token query
parameter and no Authorization header, a credential-configured client
sends a Basic Authorization header and no access_token parameter, and no
request ever carries both. -/
theorem C8_auth_exclusive (cfg : TargetProcessConfig) (et : String)
    (wq iq : Option String) (tk : Int) (eid : Int) (d : Json) (cmt : String) :
    authExclusive cfg ((mkClient cfg).get_entities_req et wq iq tk) ∧
    authExclusive cfg ((mkClient cfg).get_entity_by_id_req et eid iq) ∧
    authExclusive cfg ((mkClient cfg).create_entity_req et d) ∧
    authExclusive cfg ((mkClient cfg).update_entity_req et eid d) ∧
    authExclusive cfg ((mkClient cfg).add_comment_req eid cmt) := by
  refine ⟨?_, ?_, ?_, ?_, ?_⟩ <;>
    refine authExclusive_of cfg _ (sendsTokenParam_eq cfg _ ?_)
      (sendsBasicHeader_eq cfg) <;>
    simp [List.any_append, any_access_token_optQueryParam]

/-- C8 witness: a token-configured client's list request carries the token
parameter and no Basic header; a credential-configured client's update
request carries the Basic header and no token parameter. -/
theorem C8_auth_exclusive_witness :
    (sendsTokenParam ((mkClient ⟨"https://x.test", some "tok", none, none⟩).get_entities_req
        "UserStories" none none 50) = true ∧
     sendsBasicHeader ((mkClient ⟨"https://x.test", some "tok", none, none⟩).get_entities_req
        "UserStories" none none 50) = false) ∧
    (sendsBasicHeader ((mkClient ⟨"https://x.test", none, some "u", some "p"⟩).update_entity_req
        "Tasks" 1 Json.null) = true ∧
     sendsTokenParam ((mkClient ⟨"https://x.test", none, some "u", some "p"⟩).update_entity_req
        "Tasks" 1 Json.null) = false) := by
  constructor
  · exact (C8_auth_exclusive ⟨"https://x.test", some "tok", none, none⟩
      "UserStories" none none 50 1 Json.null "c").1.1 rfl
  · exact ((C8_auth_exclusive ⟨"https://x.test", none, some "u", some "p"⟩
      "Tasks" none none 50 1 Json.null "c").2.2.2.1).2.1 rfl rfl rfl

/-- The JSON object has an "error" key (the shape of every inline error
return). -/
def hasErrorKey : Json → Bool
  | Json.obj kvs => (kvListToList kvs).any (fun kv => kv.1 = "error")
  | _ => false

/-- The amended output contract of a tool: the returned string serializes
one JSON value, pretty-printed with 2-space indent, or — for the inline
error returns only — compact (default `json.dumps`) with an "error" key. -/
def jsonToolOutput (out : String) : Prop :=
  ∃ j : Json, out = dumpsIndent2 j ∨ (out = dumps j ∧ hasErrorKey j = true)

theorem probeDeleteStates_output (plural et : String) (eid pid : Int)
    (lookup : GetEntitiesCall → Option (List EntityStateItem))
    (upd : UpdateEntityCall → List (String × Json))
    (statesLk : GetEntitiesCall → Option (List StateRaw)) :
    ∀ names : List String,
      jsonToolOutput
        (probeDeleteStates plural et eid pid lookup upd statesLk names).1 := by
  intro names
  induction names with
  | nil => exact ⟨deleteFallbackJson et pid statesLk, Or.inr ⟨rfl, rfl⟩⟩
  | cons n rest ih =>
      rcases h : (lookup (deleteStateQuery et pid n)).getD [] with _ | ⟨st, r⟩
      · have step : probeDeleteStates plural et eid pid lookup upd statesLk
            (n :: rest) =
            probeDeleteStates plural et eid pid lookup upd statesLk rest := by
          simp [probeDeleteStates, h]
        rw [step]
        exact ih
      · exact ⟨jObj (dictInsert (upd ⟨plural, eid, entityStatePayload st.Id⟩)
          "Note" (Json.str ("Entity marked as " ++ n))),
          Or.inl (by simp [probeDeleteStates, h])⟩

/-- C9, counterexample: the claim says every return path is pretty-printed
JSON with 2-space indent, but `update_entity_state`'s state-not-found
return uses `json.dumps` with default arguments: the returned string is the
compact one-line serialization of the error object, not its 2-space-indent
pretty-printing (which spans lines), so the claim as stated fails. -/
theorem C9_indent_counterexample :
    (update_entity_state "Task" 789 "Ghost" (fun _ => some [])
        (fun _ => Json.null)).1 =
      dumps (errorJson "State 'Ghost' not found") ∧
    (update_entity_state "Task" 789 "Ghost" (fun _ => some [])
        (fun _ => Json.null)).1 ≠
      dumpsIndent2 (errorJson "State 'Ghost' not found") ∧
    ((update_entity_state "Task" 789 "Ghost" (fun _ => some [])
        (fun _ => Json.null)).1.toList.contains (Char.ofNat 10) = false) ∧
    ((dumpsIndent2 (errorJson "State 'Ghost' not found")).toList.contains
      (Char.ofNat 10) = true) := by
  exact ⟨rfl, by decide, by decide, by decide⟩

/-- C9, amended: every return path of every embedded tool returns a single
string serializing one JSON value — the remote payload (or result object)
pretty-printed with 2-space indent on the success paths, or an inline
error object with an "error" key serialized compactly (`json.dumps`
defaults, single line) on the inline-error paths. -/
theorem C9_tool_output_amended (et : String) (eid : Int) (sname : String)
    (hours : Rat) (query : String) (limit : Int)
    (nm ds : Option String) (sid iter : Option Int) (eff : Option Rat)
    (pidQ prjQ : Option Int) (useDone : Bool)
    (lookup : GetEntitiesCall → Option (List EntityStateItem))
    (upd : UpdateEntityCall → Json)
    (updL : UpdateEntityCall → List (String × Json))
    (readTS : GetByIdCall → Option Rat)
    (searchOracle : GetEntitiesCall → Except String (Option (List Json)))
    (projLk : GetByIdCall → Option Int)
    (statesLk : GetEntitiesCall → Option (List StateRaw))
    (getById : GetByIdCall → Option EntityInfo) :
    jsonToolOutput (update_entity_state et eid sname lookup upd).1 ∧
    jsonToolOutput (update_time_spent et eid hours readTS upd).1 ∧
    jsonToolOutput (search_entities query none limit searchOracle).1 ∧
    jsonToolOutput (get_entity_states_core et pidQ prjQ projLk statesLk).1 ∧
    jsonToolOutput (delete_entity et eid useDone getById lookup updL statesLk).1 ∧
    jsonToolOutput (update_user_story eid nm ds sid eff iter upd).1 := by
  refine ⟨?_, ?_, ?_, ?_, ?_, ?_⟩
  · rcases h : (lookup (stateLookupQuery sname)).getD [] with _ | ⟨st, rest⟩
    · exact ⟨errorJson ("State '" ++ sname ++ "' not found"),
        Or.inr ⟨by simp [update_entity_state, h], rfl⟩⟩
    · exact ⟨upd ⟨et, eid, entityStatePayload st.Id⟩,
        Or.inl (by simp [update_entity_state, h])⟩
  · exact ⟨upd ⟨et, eid, jObj [("TimeSpent",
      Json.num ((readTS (timeSpentReadCall et eid)).getD 0 + hours))]⟩,
      Or.inl rfl⟩
  · exact ⟨jObj ((search_entities query none limit searchOracle).2),
      Or.inl rfl⟩
  · exact ⟨(get_entity_states_core et pidQ prjQ projLk statesLk).2,
      Or.inl rfl⟩
  · rcases h : getById ⟨pluralize et, eid, some "[Project[Process]]"⟩ with
      _ | ⟨info⟩
    · exact ⟨errorJson (et ++ " " ++ toString eid ++ " not found"),
        Or.inr ⟨by simp [delete_entity, h], rfl⟩⟩
    · by_cases hp : (info.projectProcessId).getD 0 = 0
      · exact ⟨errorJson "Could not determine process for entity",
          Or.inr ⟨by simp [delete_entity, h, hp], rfl⟩⟩
      · have step : delete_entity et eid useDone getById lookup updL statesLk =
            probeDeleteStates (pluralize et) et eid
              ((info.projectProcessId).getD 0) lookup updL statesLk
              (if useDone then doneStateNames else deletedStateNames) := by
          simp [delete_entity, h, hp]
        rw [step]
        exact probeDeleteStates_output (pluralize et) et eid
          ((info.projectProcessId).getD 0) lookup updL statesLk _
  · rcases h : (update_user_story_data nm ds sid eff iter).isEmpty with _ | _
    · exact ⟨upd ⟨"UserStories", eid,
        jObj (update_user_story_data nm ds sid eff iter)⟩,
        Or.inl (by simp [update_user_story, h])⟩
    · exact ⟨errorJson "No fields to update",
        Or.inr ⟨by simp [update_user_story, h], rfl⟩⟩

/-- C10: across the embedded tools, an optional argument supplied with a
falsy value (0 for an integer, "" for a string, an empty list for
search_entities' entity_types) behaves exactly like an absent argument —
it contributes no filter clause and no payload field — with the single
exception of update_user_story's effort, which is tested against None and
therefore lands in the payload even when it is 0.0 (last two conjuncts:
the payload with effort 0 differs from the payload without effort, and
contains the Effort 0 field). -/
theorem C10_falsy_equals_absent :
    (∀ (iid : Option Int) (st asg wc : Option String),
      list_user_stories_where (some 0) iid st asg wc =
        list_user_stories_where none iid st asg wc) ∧
    (∀ (pid : Option Int) (st asg wc : Option String),
      list_user_stories_where pid (some 0) st asg wc =
        list_user_stories_where pid none st asg wc) ∧
    (∀ (pid iid : Option Int) (asg wc : Option String),
      list_user_stories_where pid iid (some "") asg wc =
        list_user_stories_where pid iid none asg wc) ∧
    (∀ (pid iid : Option Int) (st wc : Option String),
      list_user_stories_where pid iid st (some "") wc =
        list_user_stories_where pid iid st none wc) ∧
    (∀ (pid iid : Option Int) (st asg : Option String),
      list_user_stories_where pid iid st asg (some "") =
        list_user_stories_where pid iid st asg none) ∧
    (∀ (asg st wc : Option String),
      list_tasks_where (some 0) asg st wc = list_tasks_where none asg st wc) ∧
    (∀ (sid : Option Int) (st wc : Option String),
      list_tasks_where sid (some "") st wc = list_tasks_where sid none st wc) ∧
    (∀ (sid : Option Int) (asg wc : Option String),
      list_tasks_where sid asg (some "") wc = list_tasks_where sid asg none wc) ∧
    (∀ (sid : Option Int) (asg st : Option String),
      list_tasks_where sid asg st (some "") = list_tasks_where sid asg st none) ∧
    (∀ (st sev asg wc : Option String),
      list_bugs_where (some 0) st sev asg wc =
        list_bugs_where none st sev asg wc) ∧
    (∀ (pid : Option Int) (sev asg wc : Option String),
      list_bugs_where pid (some "") sev asg wc =
        list_bugs_where pid none sev asg wc) ∧
    (∀ (pid : Option Int) (st asg wc : Option String),
      list_bugs_where pid st (some "") asg wc =
        list_bugs_where pid st none asg wc) ∧
    (∀ (pid : Option Int) (st sev wc : Option String),
      list_bugs_where pid st sev (some "") wc =
        list_bugs_where pid st sev none wc) ∧
    (∀ (pid : Option Int) (st sev asg : Option String),
      list_bugs_where pid st sev asg (some "") =
        list_bugs_where pid st sev asg none) ∧
    (∀ (cur : Bool),
      list_iterations_where (some 0) cur = list_iterations_where none cur) ∧
    (∀ (uem et st : Option String) (pid : Option Int),
      list_assignments_where (some 0) uem et st pid =
        list_assignments_where none uem et st pid) ∧
    (∀ (uid : Option Int) (et st : Option String) (pid : Option Int),
      list_assignments_where uid (some "") et st pid =
        list_assignments_where uid none et st pid) ∧
    (∀ (uid : Option Int) (uem st : Option String) (pid : Option Int),
      list_assignments_where uid uem (some "") st pid =
        list_assignments_where uid uem none st pid) ∧
    (∀ (uid : Option Int) (uem et : Option String) (pid : Option Int),
      list_assignments_where uid uem et (some "") pid =
        list_assignments_where uid uem et none pid) ∧
    (∀ (uid : Option Int) (uem et st : Option String),
      list_assignments_where uid uem et st (some 0) =
        list_assignments_where uid uem et st none) ∧
    (∀ (q : String) (lim : Int)
        (oracle : GetEntitiesCall → Except String (Option (List Json))),
      search_entities q (some []) lim oracle =
        search_entities q none lim oracle) ∧
    (∀ (et : String) (prj : Option Int) (pl : GetByIdCall → Option Int)
        (sl : GetEntitiesCall → Option (List StateRaw)),
      get_entity_states_core et (some 0) prj pl sl =
        get_entity_states_core et none prj pl sl) ∧
    (∀ (et : String) (pid : Option Int) (pl : GetByIdCall → Option Int)
        (sl : GetEntitiesCall → Option (List StateRaw)),
      get_entity_states_core et pid (some 0) pl sl =
        get_entity_states_core et pid none pl sl) ∧
    (∀ (nm : String) (sid : Int) (au : Option Int) (eff : Option Rat),
      create_task_data nm sid (some "") au eff =
        create_task_data nm sid none au eff) ∧
    (∀ (nm : String) (sid : Int) (ds : Option String) (eff : Option Rat),
      create_task_data nm sid ds (some 0) eff =
        create_task_data nm sid ds none eff) ∧
    (∀ (nm : String) (sid : Int) (ds : Option String) (au : Option Int),
      create_task_data nm sid ds au (some 0) =
        create_task_data nm sid ds au none) ∧
    (∀ (ds : Option String) (sid : Option Int) (eff : Option Rat)
        (iter : Option Int),
      update_user_story_data (some "") ds sid eff iter =
        update_user_story_data none ds sid eff iter) ∧
    (∀ (nm : Option String) (sid : Option Int) (eff : Option Rat)
        (iter : Option Int),
      update_user_story_data nm (some "") sid eff iter =
        update_user_story_data nm none sid eff iter) ∧
    (∀ (nm ds : Option String) (eff : Option Rat) (iter : Option Int),
      update_user_story_data nm ds (some 0) eff iter =
        update_user_story_data nm ds none eff iter) ∧
    (∀ (nm ds : Option String) (sid : Option Int) (eff : Option Rat),
      update_user_story_data nm ds sid eff (some 0) =
        update_user_story_data nm ds sid eff none) ∧
    (∀ (nm ds : Option String) (sid iter : Option Int),
      update_user_story_data nm ds sid (some 0) iter ≠
        update_user_story_data nm ds sid none iter) ∧
    (∀ (nm ds : Option String) (sid iter : Option Int),
      ("Effort", Json.num 0) ∈ update_user_story_data nm ds sid (some 0) iter) := by
  refine ⟨fun _ _ _ _ => rfl, fun _ _ _ _ => rfl, fun _ _ _ _ => rfl,
    fun _ _ _ _ => rfl, fun _ _ _ _ => rfl,
    fun _ _ _ => rfl, fun _ _ _ => rfl, fun _ _ _ => rfl, fun _ _ _ => rfl,
    fun _ _ _ _ => rfl, fun _ _ _ _ => rfl, fun _ _ _ _ => rfl,
    fun _ _ _ _ => rfl, fun _ _ _ _ => rfl,
    fun _ => rfl,
    fun _ _ _ _ => rfl, fun _ _ _ _ => rfl, fun _ _ _ _ => rfl,
    fun _ _ _ _ => rfl, fun _ _ _ _ => rfl,
    fun _ _ _ => rfl,
    fun _ _ _ _ => rfl, fun _ _ _ _ => rfl,
    fun _ _ _ _ => rfl, fun _ _ _ _ => rfl, fun _ _ _ _ => rfl,
    fun _ _ _ _ => rfl, fun _ _ _ _ => rfl, fun _ _ _ _ => rfl,
    fun _ _ _ _ => rfl, ?_, ?_⟩
  · intro nm ds sid iter h
    have hl := congrArg List.length h
    simp [update_user_story_data, List.length_append] at hl
  · intro nm ds sid iter
    simp [update_user_story_data, List.mem_append]
